import Mathlib

/-!
Shallow embedding of src/follower_automation.py (class GitHubFollowerManager).

The embedding models:
 - user dictionaries returned by the GitHub API (`UserData` — the three keys the
   code reads: login, followers, type; each optional, mirroring dict.get);
 - the `should_skip_user` safety filter (lines 162-176);
 - the `get_followers` / `get_following` pagination loops (lines 44-110) as a
   fuel-indexed loop over a page oracle (`collect_loop`); `none` means the
   while-loop has not finished within the given number of iterations;
 - the set computations of `follow_back_followers`, `cleanup_non_followers`
   and `get_statistics` over `Finset String`;
 - the per-candidate action loops of `follow_back_followers` (lines 202-215)
   and `cleanup_non_followers` (lines 246-259) as trace-producing functions
   over an `Oracle` giving the remote API's answers; the produced `Event`
   list records the API calls (profile lookup, follow/unfollow mutation),
   the filter decisions and the sleeps, in program order.
-/

/-- A GitHub user object as a dictionary; only the keys the code reads are
modelled.  A `none` field is an absent key, so `u.followers?.getD 0` embeds
the Python `user_data.get('followers', 0)`, `u.login?.getD ""` embeds
`user_data.get('login', '')`, and `u.type?` embeds `user_data.get('type')`
(whose default is None).  The empty Python dict `{}` is `UserData.mk none
none none`. -/
structure UserData where
  login? : Option String := none
  followers? : Option Nat := none
  type? : Option String := none
deriving DecidableEq, Repr

/-- The Python empty dict `{}` used by `following_info.get(username, {})`. -/
def emptyDict : UserData := {}

/-- `user['login']` on a listing entry (the API always supplies login; the
embedding uses the defaulted accessor, which agrees whenever the key is
present). -/
def loginOf (u : UserData) : String := u.login?.getD ""

/-- Python substring test helper: does `needle` occur at the start of `hay`? -/
def startsWithChars : List Char → List Char → Bool
  | _, [] => true
  | [], _ :: _ => false
  | a :: as, b :: bs => a == b && startsWithChars as bs

/-- Python substring test helper: does `needle` occur contiguously in `hay`? -/
def hasRunChars (needle : List Char) : List Char → Bool
  | [] => startsWithChars [] needle
  | a :: t => startsWithChars (a :: t) needle || hasRunChars needle t

/-- Python `needle in hay` on strings (substring containment). -/
def strContains (hay needle : String) : Bool := hasRunChars needle.data hay.data

/-- Python `s.lower()` on the identifiers involved (character-wise
lowercasing; GitHub logins are ASCII, where `Char.toLower` agrees with
Python). -/
def lowerStr (s : String) : String := String.mk (s.data.map Char.toLower)

/-- `should_skip_user` (src/follower_automation.py lines 162-176):
skip if `user_data.get('followers', 0) > 10000`; else skip if
`user_data.get('type') == 'Organization' and 'github' in
user_data.get('login', '').lower()`; else do not skip.
This Bool model gives the value the function returns whenever it returns;
the error path — the skip-logging f-string on line 168 indexes
`user_data['login']` directly, so a mapping with more than 10000 followers
and no 'login' key raises KeyError instead of returning — is modelled by
`should_skip_user_run` below, which agrees with this model on every
returning input.  Every input the action loops pass is a returning one:
the follow-back loop passes full API user objects from `get_user_info`,
and the cleanup loop passes listing records (each keyed by its own
`user['login']` on lines 227/243) or the empty dict. -/
def should_skip_user (u : UserData) : Bool :=
  if 10000 < u.followers?.getD 0 then true
  else if u.type? == some "Organization" && strContains (lowerStr (u.login?.getD "")) "github" then true
  else false

/-- `should_skip_user` as the Python function actually executes, error path
included: `some b` means the call returns `b`, `none` means it raises.
When the popularity guard `user_data.get('followers', 0) > 10000` holds,
line 168's logging f-string indexes `user_data['login']` directly, so a
mapping without a 'login' key raises KeyError there (the same line's
`user_data['followers']` index is safe: the guard forces that key to be
present, since an absent key defaults to 0).  The organization branch's
line 173 also indexes `user_data['login']` directly, but that branch is
only entered when 'github' occurs in `user_data.get('login', '').lower()`,
which is impossible with the key absent, so its `none` arm is
unreachable. -/
def should_skip_user_run (u : UserData) : Option Bool :=
  if 10000 < u.followers?.getD 0 then
    match u.login? with
    | none => none
    | some _ => some true
  else if u.type? == some "Organization" && strContains (lowerStr (u.login?.getD "")) "github" then
    match u.login? with
    | none => none
    | some _ => some true
  else some false

/-- One page fetch result: `ok users` is an HTTP 200 whose JSON body is
`users`; `err s` is any non-200 status `s`. -/
inductive PageResp where
  | ok (users : List UserData)
  | err (status : Nat)
deriving DecidableEq, Repr

/-- A page response on which the while-loop of `get_followers` /
`get_following` stops: an empty 200 page or any non-200 response. -/
def isTerminalPage : PageResp → Bool
  | PageResp.ok [] => true
  | PageResp.ok (_ :: _) => false
  | PageResp.err _ => true

/-- The `while True` pagination loop shared verbatim by `get_followers`
(lines 55-73) and `get_following` (lines 89-107): fetch page `page`; on 200
with an empty body, break and return the accumulator; on 200 with a
non-empty body, extend the accumulator and continue with `page+1`; on any
other status, log and break, returning the accumulator gathered so far.
`fuel` bounds the number of iterations modelled; `none` means the loop has
not finished within `fuel` iterations. -/
def collect_loop (pages : Nat → PageResp) : Nat → List UserData → Nat → Option (List UserData)
  | _, _, 0 => none
  | page, acc, fuel + 1 =>
    match pages page with
    | PageResp.ok [] => some acc
    | PageResp.ok (u :: us) => collect_loop pages (page + 1) (acc ++ (u :: us)) fuel
    | PageResp.err _ => some acc

/-- `get_followers` (lines 44-76): run the pagination loop from page 1 with
an empty accumulator, and return the resulting followers list. -/
def get_followers (pages : Nat → PageResp) (fuel : Nat) : Option (List UserData) :=
  collect_loop pages 1 [] fuel

/-- `get_following` (lines 78-110): textually the same loop as
`get_followers`, against the following endpoint. -/
def get_following (pages : Nat → PageResp) (fuel : Nat) : Option (List UserData) :=
  collect_loop pages 1 [] fuel

/-- `{user['login'] for user in users}` (lines 186-187, 227-228, 270-271). -/
def usernames_of (users : List UserData) : Finset String :=
  (users.map loginOf).toFinset

/-- `to_follow_back = follower_usernames - following_usernames` (line 190);
also `only_followers` in `get_statistics` (line 274). -/
def to_follow_back (F G : Finset String) : Finset String := F \ G

/-- `non_followers = following_usernames - follower_usernames` (line 231);
also `only_following` in `get_statistics` (line 275); the spec calls this
set `non_reciprocators`. -/
def non_followers (F G : Finset String) : Finset String := G \ F

/-- `mutual_follows = follower_usernames & following_usernames` (line 273). -/
def mutual_follows_set (F G : Finset String) : Finset String := F ∩ G

/-- The `stats` dictionary built by `get_statistics` (lines 277-284). -/
structure Stats where
  followers_count : Nat
  following_count : Nat
  mutual_follows : Nat
  only_followers : Nat
  only_following : Nat
  follow_ratio : ℚ
deriving DecidableEq, Repr

/-- `get_statistics` (lines 263-294) applied to the two fetched lists:
counts come from list lengths and the three derived sets, and
`follow_ratio = len(followers) / max(len(following), 1)` (line 283, exact
division modelled in ℚ). -/
def get_statistics (followers following : List UserData) : Stats :=
  { followers_count := followers.length
    following_count := following.length
    mutual_follows := (mutual_follows_set (usernames_of followers) (usernames_of following)).card
    only_followers := (to_follow_back (usernames_of followers) (usernames_of following)).card
    only_following := (non_followers (usernames_of followers) (usernames_of following)).card
    follow_ratio := (followers.length : ℚ) / (max following.length 1 : ℚ) }

/-- Observable effects of one action loop, in program order. -/
inductive Event where
  | getUserInfoCall (u : String)
  | filterCheck (u : String) (skipped : Bool)
  | followCall (u : String) (ok : Bool)
  | unfollowCall (u : String) (ok : Bool)
  | sleepFor (secs : Nat)
deriving DecidableEq, Repr

/-- Remote API behaviour during an action loop: `userInfo u` is what
`get_user_info(u)` returns (`none` embeds Python `None` on a non-200);
`followOk u` / `unfollowOk u` is whether `follow_user(u)` /
`unfollow_user(u)` returns True (status 204). -/
structure Oracle where
  userInfo : String → Option UserData
  followOk : String → Bool
  unfollowOk : String → Bool

/-- Result of one action loop: the candidates that were processed (reached
the loop body past the break check), the final success counter, and the
event trace. -/
structure LoopResult where
  processed : List String
  succeeded : Nat
  events : List Event
deriving Repr

/-- The follow loop body of `follow_back_followers` (lines 202-215):
for each selected candidate, break if `followed_count >= cap`; call
`get_user_info`; if it returned a (truthy) dict and `should_skip_user` says
skip, continue; otherwise call `follow_user` and, on success, increment the
counter and sleep `delay`.  Note that when `get_user_info` returns None the
`if user_info and self.should_skip_user(user_info)` guard is falsy, so the
filter is not applied and the flow falls through to `follow_user`. -/
def follow_back_loop (o : Oracle) (cap delay : Nat) : List String → Nat → LoopResult
  | [], count => ⟨[], count, []⟩
  | u :: rest, count =>
    if cap ≤ count then ⟨[], count, []⟩
    else
      match o.userInfo u with
      | some d =>
        if should_skip_user d then
          let r := follow_back_loop o cap delay rest count
          ⟨u :: r.processed, r.succeeded,
            Event.getUserInfoCall u :: Event.filterCheck u true :: r.events⟩
        else if o.followOk u then
          let r := follow_back_loop o cap delay rest (count + 1)
          ⟨u :: r.processed, r.succeeded,
            Event.getUserInfoCall u :: Event.filterCheck u false ::
              Event.followCall u true :: Event.sleepFor delay :: r.events⟩
        else
          let r := follow_back_loop o cap delay rest count
          ⟨u :: r.processed, r.succeeded,
            Event.getUserInfoCall u :: Event.filterCheck u false ::
              Event.followCall u false :: r.events⟩
      | none =>
        if o.followOk u then
          let r := follow_back_loop o cap delay rest (count + 1)
          ⟨u :: r.processed, r.succeeded,
            Event.getUserInfoCall u :: Event.followCall u true ::
              Event.sleepFor delay :: r.events⟩
        else
          let r := follow_back_loop o cap delay rest count
          ⟨u :: r.processed, r.succeeded,
            Event.getUserInfoCall u :: Event.followCall u false :: r.events⟩

/-- The action part of `follow_back_followers` (line 203):
`for username in list(to_follow_back)[:self.max_follows_per_run]` — the
loop runs over the first `cap` candidates of the enumeration `candidates`
of the computed set difference, starting with `followed_count = 0`. -/
def follow_back_followers (o : Oracle) (cap delay : Nat) (candidates : List String) : LoopResult :=
  follow_back_loop o cap delay (candidates.take cap) 0

/-- `following_info = {user['login']: user for user in following}` (line 243). -/
def build_following_info (following : List UserData) : List (String × UserData) :=
  following.map (fun u => (loginOf u, u))

/-- The unfollow loop body of `cleanup_non_followers` (lines 246-259):
for each selected candidate, break if `unfollowed_count >= cap`; look the
candidate up in the cached `following_info` map with default `{}`; if
`should_skip_user` says skip, continue; otherwise call `unfollow_user` and,
on success, increment the counter and sleep `delay`.  No `get_user_info`
call is made in this loop. -/
def cleanup_loop (o : Oracle) (following_info : List (String × UserData)) (cap delay : Nat) :
    List String → Nat → LoopResult
  | [], count => ⟨[], count, []⟩
  | u :: rest, count =>
    if cap ≤ count then ⟨[], count, []⟩
    else
      if should_skip_user ((following_info.lookup u).getD emptyDict) then
        let r := cleanup_loop o following_info cap delay rest count
        ⟨u :: r.processed, r.succeeded, Event.filterCheck u true :: r.events⟩
      else if o.unfollowOk u then
        let r := cleanup_loop o following_info cap delay rest (count + 1)
        ⟨u :: r.processed, r.succeeded,
          Event.filterCheck u false :: Event.unfollowCall u true ::
            Event.sleepFor delay :: r.events⟩
      else
        let r := cleanup_loop o following_info cap delay rest count
        ⟨u :: r.processed, r.succeeded,
          Event.filterCheck u false :: Event.unfollowCall u false :: r.events⟩

/-- The action part of `cleanup_non_followers` (line 247):
`for username in list(non_followers)[:self.max_unfollows_per_run]` with
`unfollowed_count = 0`. -/
def cleanup_non_followers (o : Oracle) (following_info : List (String × UserData))
    (cap delay : Nat) (candidates : List String) : LoopResult :=
  cleanup_loop o following_info cap delay (candidates.take cap) 0

/-- Correctness of the prefix test used by the substring embedding. -/
theorem startsWithChars_iff (needle : List Char) : ∀ hay : List Char,
    startsWithChars hay needle = true ↔ ∃ rest, hay = needle ++ rest := by
  induction needle with
  | nil =>
    intro hay
    simp [startsWithChars]
  | cons b bs ih =>
    intro hay
    cases hay with
    | nil => simp [startsWithChars]
    | cons a as =>
      simp only [startsWithChars, Bool.and_eq_true, beq_iff_eq, ih, List.cons_append,
        List.cons.injEq]
      constructor
      · rintro ⟨hab, rest, hrest⟩
        exact ⟨rest, hab, hrest⟩
      · rintro ⟨rest, hab, hrest⟩
        exact ⟨hab, rest, hrest⟩

/-- Correctness of the substring test: `hasRunChars needle hay` holds exactly
when `needle` occurs contiguously inside `hay`. -/
theorem hasRunChars_iff (needle : List Char) : ∀ hay : List Char,
    hasRunChars needle hay = true ↔ ∃ l1 l2, hay = l1 ++ needle ++ l2 := by
  intro hay
  induction hay with
  | nil =>
    simp only [hasRunChars, startsWithChars_iff]
    constructor
    · rintro ⟨rest, hrest⟩
      exact ⟨[], rest, hrest⟩
    · rintro ⟨l1, l2, h⟩
      cases l1 with
      | nil => exact ⟨l2, h⟩
      | cons x xs => simp at h
  | cons a t ih =>
    simp only [hasRunChars, Bool.or_eq_true, startsWithChars_iff, ih]
    constructor
    · rintro (⟨rest, hrest⟩ | ⟨l1, l2, h⟩)
      · exact ⟨[], rest, by simpa using hrest⟩
      · exact ⟨a :: l1, l2, by simp [h]⟩
    · rintro ⟨l1, l2, h⟩
      cases l1 with
      | nil =>
        exact Or.inl ⟨l2, by simpa using h⟩
      | cons x xs =>
        simp only [List.cons_append, List.cons.injEq] at h
        exact Or.inr ⟨xs, l2, h.2⟩

/-- Claim C5 (confirmed): the safety filter skips exactly the profiles with
more than 10000 followers, or of Organization type whose lowercased login
contains the substring "github"; in particular a profile with exactly 10000
followers is never skipped by the popularity rule (strict `>`), and no
other profile is skipped. -/
theorem C5_filter_iff (u : UserData) :
    should_skip_user u = true ↔
      (10000 < u.followers?.getD 0 ∨
        (u.type? = some "Organization" ∧
          ∃ l1 l2, (lowerStr (u.login?.getD "")).data = l1 ++ "github".data ++ l2)) := by
  by_cases h1 : 10000 < u.followers?.getD 0
  · simp [should_skip_user, h1]
  · cases h2 : (u.type? == some "Organization" && strContains (lowerStr (u.login?.getD "")) "github") with
    | true =>
      have h2' := h2
      rw [Bool.and_eq_true, beq_iff_eq] at h2'
      simp only [strContains] at h2'
      simp only [should_skip_user, if_neg h1, h2, if_true, true_iff]
      exact Or.inr ⟨h2'.1, (hasRunChars_iff _ _).mp h2'.2⟩
    | false =>
      have hL : should_skip_user u = false := by
        simp [should_skip_user, h1, h2]
      rw [hL]
      simp only [Bool.false_eq_true, false_iff]
      rintro (hA | ⟨hB1, hB2⟩)
      · exact h1 hA
      · have hc : (u.type? == some "Organization" && strContains (lowerStr (u.login?.getD "")) "github") = true := by
          rw [Bool.and_eq_true, beq_iff_eq]
          refine ⟨hB1, ?_⟩
          simp only [strContains]
          exact (hasRunChars_iff _ _).mpr hB2
        rw [h2] at hc
        exact Bool.false_ne_true hc

/-- Claim C4 (confirmed): the three derived sets `to_follow_back = F−G`,
`non_followers = G−F` (the spec's non_reciprocators) and
`mutual_follows = F∩G` cover `F ∪ G` and are pairwise disjoint. -/
theorem C4_partition (F G : Finset String) :
    (to_follow_back F G ∪ non_followers F G ∪ mutual_follows_set F G = F ∪ G) ∧
      Disjoint (to_follow_back F G) (non_followers F G) ∧
      Disjoint (to_follow_back F G) (mutual_follows_set F G) ∧
      Disjoint (non_followers F G) (mutual_follows_set F G) := by
  refine ⟨?_, ?_, ?_, ?_⟩
  · ext a
    simp only [to_follow_back, non_followers, mutual_follows_set, Finset.mem_union,
      Finset.mem_sdiff, Finset.mem_inter]
    tauto
  · rw [Finset.disjoint_left]
    intro a ha hb
    simp only [to_follow_back, non_followers, Finset.mem_sdiff] at ha hb
    tauto
  · rw [Finset.disjoint_left]
    intro a ha hb
    simp only [to_follow_back, mutual_follows_set, Finset.mem_sdiff, Finset.mem_inter] at ha hb
    tauto
  · rw [Finset.disjoint_left]
    intro a ha hb
    simp only [non_followers, mutual_follows_set, Finset.mem_sdiff, Finset.mem_inter] at ha hb
    tauto

/-- Claim C8 (confirmed): the statistics denominator `max(len(following), 1)`
is positive, and with `following_count = 0` the `follow_ratio` equals
`followers_count / 1`. -/
theorem C8_ratio_safety (followers following : List UserData)
    (h : following.length = 0) :
    0 < max following.length 1 ∧
      (get_statistics followers following).follow_ratio = (followers.length : ℚ) / 1 := by
  refine ⟨by omega, ?_⟩
  simp [get_statistics, h]

/-- Concrete instance of C8 at `followers = []`, `following = []`. -/
theorem C8_ratio_safety_witness :
    0 < max (List.length ([] : List UserData)) 1 ∧
      (get_statistics [] []).follow_ratio = ((List.length ([] : List UserData) : ℚ)) / 1 :=
  C8_ratio_safety [] [] rfl

/-- In the follow loop the break guard `followed_count >= cap` never fires
while the counter plus the remaining candidates fit under the cap, so every
remaining candidate is processed. -/
theorem follow_back_loop_processed_eq (o : Oracle) (cap delay : Nat) :
    ∀ (l : List String) (count : Nat), count + l.length ≤ cap →
      (follow_back_loop o cap delay l count).processed = l := by
  intro l
  induction l with
  | nil =>
    intro count h
    simp [follow_back_loop]
  | cons u rest ih =>
    intro count h
    have hc : ¬ cap ≤ count := by simp only [List.length_cons] at h; omega
    have hrest : count + rest.length ≤ cap := by simp only [List.length_cons] at h; omega
    have hrest1 : (count + 1) + rest.length ≤ cap := by simp only [List.length_cons] at h; omega
    cases hinfo : o.userInfo u with
    | some d =>
      cases hskip : should_skip_user d with
      | true =>
        simp [follow_back_loop, hc, hinfo, hskip, ih count hrest]
      | false =>
        cases hf : o.followOk u with
        | true =>
          simp [follow_back_loop, hc, hinfo, hskip, hf, ih (count + 1) hrest1]
        | false =>
          simp [follow_back_loop, hc, hinfo, hskip, hf, ih count hrest]
    | none =>
      cases hf : o.followOk u with
      | true =>
        simp [follow_back_loop, hc, hinfo, hf, ih (count + 1) hrest1]
      | false =>
        simp [follow_back_loop, hc, hinfo, hf, ih count hrest]

/-- Same as `follow_back_loop_processed_eq` for the unfollow loop of
`cleanup_non_followers`. -/
theorem cleanup_loop_processed_eq (o : Oracle) (fi : List (String × UserData)) (cap delay : Nat) :
    ∀ (l : List String) (count : Nat), count + l.length ≤ cap →
      (cleanup_loop o fi cap delay l count).processed = l := by
  intro l
  induction l with
  | nil =>
    intro count h
    simp [cleanup_loop]
  | cons u rest ih =>
    intro count h
    have hc : ¬ cap ≤ count := by simp only [List.length_cons] at h; omega
    have hrest : count + rest.length ≤ cap := by simp only [List.length_cons] at h; omega
    have hrest1 : (count + 1) + rest.length ≤ cap := by simp only [List.length_cons] at h; omega
    cases hskip : should_skip_user ((fi.lookup u).getD emptyDict) with
    | true =>
      simp [cleanup_loop, hc, hskip, ih count hrest]
    | false =>
      cases hf : o.unfollowOk u with
      | true =>
        simp [cleanup_loop, hc, hskip, hf, ih (count + 1) hrest1]
      | false =>
        simp [cleanup_loop, hc, hskip, hf, ih count hrest]

/-- Claim C2 (confirmed): for a candidate enumeration of size `n` and cap
`c`, both action loops process exactly `min n c` candidates — the slice
`[:cap]` selects them and the in-loop break never reduces the number —
independently of the oracle's answers (skips and failures included). -/
theorem C2_cap_processes_min (o : Oracle) (fi : List (String × UserData))
    (cap delay : Nat) (candidates : List String) :
    (follow_back_followers o cap delay candidates).processed.length = min candidates.length cap ∧
      (cleanup_non_followers o fi cap delay candidates).processed.length = min candidates.length cap := by
  constructor
  · rw [follow_back_followers,
      follow_back_loop_processed_eq o cap delay (candidates.take cap) 0
        (by simp [List.length_take])]
    simp [List.length_take, Nat.min_comm]
  · rw [cleanup_non_followers,
      cleanup_loop_processed_eq o fi cap delay (candidates.take cap) 0
        (by simp [List.length_take])]
    simp [List.length_take, Nat.min_comm]

/-- Claim C1 (corrected): in the follow-back loop, when `get_user_info`
returns None for the next candidate (profile resolution fails) and the cap
is not yet reached, the guard `if user_info and should_skip_user(user_info)`
is falsy, so the safety filter is bypassed and the very next effect after
the profile lookup is the mutating `follow_user` call — the candidate is
not skipped. -/
theorem C1_profile_none_follows (o : Oracle) (cap delay count : Nat)
    (u : String) (rest : List String)
    (hnone : o.userInfo u = none) (hcap : count < cap) :
    ∃ evs, (follow_back_loop o cap delay (u :: rest) count).events =
      Event.getUserInfoCall u :: Event.followCall u (o.followOk u) :: evs := by
  have hc : ¬ cap ≤ count := by omega
  cases hf : o.followOk u with
  | true =>
    exact ⟨Event.sleepFor delay :: (follow_back_loop o cap delay rest (count + 1)).events,
      by simp [follow_back_loop, hc, hnone, hf]⟩
  | false =>
    exact ⟨(follow_back_loop o cap delay rest count).events,
      by simp [follow_back_loop, hc, hnone, hf]⟩

/-- Concrete instance of C1's corrected statement: one candidate "x" whose
profile lookup fails; the trace opens with the lookup followed by the
follow mutation. -/
theorem C1_profile_none_follows_witness :
    ∃ evs, (follow_back_loop (Oracle.mk (fun _ => none) (fun _ => true) (fun _ => true))
        5 5 ["x"] 0).events =
      Event.getUserInfoCall "x" ::
        Event.followCall "x" ((Oracle.mk (fun _ => none) (fun _ => true) (fun _ => true)).followOk "x") :: evs :=
  C1_profile_none_follows (Oracle.mk (fun _ => none) (fun _ => true) (fun _ => true))
    5 5 0 "x" [] rfl (by omega)

/-- Claim C1 as stated is false on the code: with a single selected
candidate "x" whose profile lookup returns None, the follow-back loop still
issues the mutating follow call for "x" (instead of recording a skip and
making no mutation). -/
theorem C1_counterexample :
    (Oracle.mk (fun _ => none) (fun _ => true) (fun _ => true)).userInfo "x" = none ∧
      Event.followCall "x" true ∈
        (follow_back_followers (Oracle.mk (fun _ => none) (fun _ => true) (fun _ => true))
          1 5 ["x"]).events := by
  exact ⟨rfl, by decide⟩

/-- Claim C3 (corrected): on a non-success page response the collection
loop breaks and returns the partial accumulator as an ordinary result — no
distinct failure is surfaced to the caller. -/
theorem C3_error_returns_partial (pages : Nat → PageResp) (page : Nat)
    (acc : List UserData) (fuel status : Nat) (h : pages page = PageResp.err status) :
    collect_loop pages page acc (fuel + 1) = some acc := by
  simp [collect_loop, h]

/-- Concrete instance of C3's corrected statement: a failing first page
yields the ordinary (empty) result. -/
theorem C3_error_returns_partial_witness :
    collect_loop (fun _ => PageResp.err 500) 1 [] 1 = some [] :=
  C3_error_returns_partial (fun _ => PageResp.err 500) 1 [] 0 500 rfl

/-- Claim C3 as stated is false on the code: a run whose every page fetch
fails (HTTP 500) returns exactly the same value as a successful run over a
genuinely empty listing — `some []` — so the failure is not surfaced as
anything distinct from success, and partial data is returned as if
complete. -/
theorem C3_counterexample :
    get_followers (fun _ => PageResp.err 500) 1 = get_followers (fun _ => PageResp.ok []) 1 ∧
      get_followers (fun _ => PageResp.err 500) 1 = some [] ∧
      get_following (fun _ => PageResp.err 500) 1 = some [] :=
  ⟨rfl, rfl, rfl⟩

/-- If the page `k` steps ahead of the current one is terminal (empty or
failing), the collection loop finishes within `k + 1` iterations. -/
theorem collect_loop_stops_at_terminal (pages : Nat → PageResp) :
    ∀ (k page : Nat) (acc : List UserData), isTerminalPage (pages (page + k)) = true →
      ∃ r, collect_loop pages page acc (k + 1) = some r := by
  intro k
  induction k with
  | zero =>
    intro page acc h
    rw [Nat.add_zero] at h
    cases hp : pages page with
    | ok users =>
      cases users with
      | nil => exact ⟨acc, by simp [collect_loop, hp]⟩
      | cons v vs =>
        rw [hp] at h
        simp [isTerminalPage] at h
    | err s => exact ⟨acc, by simp [collect_loop, hp]⟩
  | succ k ih =>
    intro page acc h
    cases hp : pages page with
    | ok users =>
      cases users with
      | nil => exact ⟨acc, by simp [collect_loop, hp]⟩
      | cons v vs =>
        have h' : isTerminalPage (pages (page + 1 + k)) = true := by
          have heq : page + 1 + k = page + (k + 1) := by omega
          rw [heq]
          exact h
        obtain ⟨r, hr⟩ := ih (page + 1) (acc ++ (v :: vs)) h'
        exact ⟨r, by rw [collect_loop, hp]; exact hr⟩
    | err s => exact ⟨acc, by simp [collect_loop, hp]⟩

/-- Claim C6 (corrected): the pagination loops terminate exactly when the
remote listing eventually yields a stopping page — an empty page or a
non-success response; there is no page-count safety ceiling in the code.
If page `1 + k` is such a page, both collections finish within `k + 1`
iterations. -/
theorem C6_terminates_on_terminal_page (pages : Nat → PageResp) (k : Nat)
    (h : isTerminalPage (pages (1 + k)) = true) :
    (∃ r, get_followers pages (k + 1) = some r) ∧
      (∃ r, get_following pages (k + 1) = some r) :=
  ⟨collect_loop_stops_at_terminal pages k 1 [] h,
    collect_loop_stops_at_terminal pages k 1 [] h⟩

/-- Concrete instance of C6's corrected statement: an immediately empty
listing terminates within one iteration. -/
theorem C6_terminates_on_terminal_page_witness :
    (∃ r, get_followers (fun _ => PageResp.ok []) 1 = some r) ∧
      (∃ r, get_following (fun _ => PageResp.ok []) 1 = some r) :=
  C6_terminates_on_terminal_page (fun _ => PageResp.ok []) 0 rfl

/-- A remote API that answers every page fetch with the same non-empty
successful page (an "API defect" in the spec's wording). -/
def constNonEmptyPage : Nat → PageResp := fun _ => PageResp.ok [{ login? := some "a" }]

/-- The collection never finishes, whatever iteration bound is allowed. -/
def collectorRunsForever (pages : Nat → PageResp) : Prop :=
  ∀ fuel, get_followers pages fuel = none ∧ get_following pages fuel = none

/-- Against `constNonEmptyPage` the loop never reaches a stopping page. -/
theorem constNonEmptyPage_never_stops :
    ∀ (fuel page : Nat) (acc : List UserData),
      collect_loop constNonEmptyPage page acc fuel = none := by
  intro fuel
  induction fuel with
  | zero => intro page acc; rfl
  | succ fuel ih =>
    intro page acc
    simp only [collect_loop, constNonEmptyPage]
    exact ih (page + 1) (acc ++ [{ login? := some "a" }])

/-- Claim C6 as stated is false on the code: there is no page-count
ceiling, so against a remote API that never returns an empty page the
number of page fetches is unbounded — the `while True` loop never finishes
within any number of iterations. -/
theorem C6_counterexample : collectorRunsForever constNonEmptyPage := by
  intro fuel
  exact ⟨constNonEmptyPage_never_stops fuel 1 [], constNonEmptyPage_never_stops fuel 1 []⟩

/-- Trace checker: every filter decision is immediately preceded by the
profile lookup of the same candidate. -/
def info_before_filter : List Event → Bool
  | [] => true
  | Event.getUserInfoCall u :: Event.filterCheck v _ :: rest => u == v && info_before_filter rest
  | Event.filterCheck _ _ :: _ => false
  | _ :: rest => info_before_filter rest

/-- In the follow-back loop every filter decision comes right after the
`get_user_info` call for the same candidate. -/
theorem follow_back_loop_info_before_filter (o : Oracle) (cap delay : Nat) :
    ∀ (l : List String) (count : Nat),
      info_before_filter (follow_back_loop o cap delay l count).events = true := by
  intro l
  induction l with
  | nil =>
    intro count
    simp [follow_back_loop, info_before_filter]
  | cons u rest ih =>
    intro count
    by_cases hc : cap ≤ count
    · simp [follow_back_loop, hc, info_before_filter]
    · cases hinfo : o.userInfo u with
      | some d =>
        cases hskip : should_skip_user d with
        | true => simp [follow_back_loop, hc, hinfo, hskip, info_before_filter, ih]
        | false =>
          cases hf : o.followOk u with
          | true => simp [follow_back_loop, hc, hinfo, hskip, hf, info_before_filter, ih]
          | false => simp [follow_back_loop, hc, hinfo, hskip, hf, info_before_filter, ih]
      | none =>
        cases hf : o.followOk u with
        | true => simp [follow_back_loop, hc, hinfo, hf, info_before_filter, ih]
        | false => simp [follow_back_loop, hc, hinfo, hf, info_before_filter, ih]

/-- The cleanup loop never calls `get_user_info` at all. -/
theorem cleanup_loop_no_info_call (o : Oracle) (fi : List (String × UserData))
    (cap delay : Nat) (v : String) :
    ∀ (l : List String) (count : Nat),
      Event.getUserInfoCall v ∉ (cleanup_loop o fi cap delay l count).events := by
  intro l
  induction l with
  | nil =>
    intro count
    simp [cleanup_loop]
  | cons u rest ih =>
    intro count
    by_cases hc : cap ≤ count
    · simp [cleanup_loop, hc]
    · cases hskip : should_skip_user ((fi.lookup u).getD emptyDict) with
      | true => simp [cleanup_loop, hc, hskip, ih]
      | false =>
        cases hf : o.unfollowOk u with
        | true => simp [cleanup_loop, hc, hskip, hf, ih]
        | false => simp [cleanup_loop, hc, hskip, hf, ih]

/-- Claim C7 (corrected): only the follow-back loop resolves each
candidate's profile via the single-profile lookup (`get_user_info`)
immediately before applying the safety filter; the cleanup loop applies the
filter to the cached record from the following listing and never performs
the single-profile lookup. -/
theorem C7_lookup_before_filter_only_in_follow_back :
    (∀ (o : Oracle) (cap delay : Nat) (candidates : List String),
        info_before_filter (follow_back_followers o cap delay candidates).events = true) ∧
      (∀ (o : Oracle) (fi : List (String × UserData)) (cap delay : Nat)
          (candidates : List String) (v : String),
        Event.getUserInfoCall v ∉ (cleanup_non_followers o fi cap delay candidates).events) :=
  ⟨fun o cap delay candidates =>
      follow_back_loop_info_before_filter o cap delay (candidates.take cap) 0,
    fun o fi cap delay candidates v =>
      cleanup_loop_no_info_call o fi cap delay v (candidates.take cap) 0⟩

/-- Claim C7 as stated is false on the code: in the cleanup phase the
safety filter is applied to candidate "x" although no `get_user_info`
lookup occurs anywhere in the phase's trace. -/
theorem C7_counterexample :
    Event.filterCheck "x" false ∈
        (cleanup_non_followers (Oracle.mk (fun _ => some emptyDict) (fun _ => true) (fun _ => true))
          [] 1 0 ["x"]).events ∧
      Event.getUserInfoCall "x" ∉
        (cleanup_non_followers (Oracle.mk (fun _ => some emptyDict) (fun _ => true) (fun _ => true))
          [] 1 0 ["x"]).events := by
  decide

/-- Characterization of the executed filter: with an identifier present it
returns what the total model returns; with the identifier absent it raises
exactly when the popularity guard fires, and returns "do not skip"
otherwise. -/
theorem should_skip_user_run_eq (u : UserData) :
    should_skip_user_run u =
      match u.login? with
      | some _ => some (should_skip_user u)
      | none => if 10000 < u.followers?.getD 0 then none else some false := by
  cases hl : u.login? with
  | none =>
    by_cases h1 : 10000 < u.followers?.getD 0
    · simp [should_skip_user_run, h1, hl]
    · have hnc : strContains (lowerStr "") "github" = false := by decide
      simp [should_skip_user_run, h1, hl, hnc]
  | some s =>
    by_cases h1 : 10000 < u.followers?.getD 0
    · simp [should_skip_user_run, should_skip_user, h1, hl]
    · by_cases h2 : u.type? = some "Organization" ∧ strContains (lowerStr s) "github" = true
      · simp [should_skip_user_run, should_skip_user, h1, hl, h2]
      · simp [should_skip_user_run, should_skip_user, h1, hl, h2]

/-- Claim C10 (corrected): the safety filter reads a missing follower
count as 0 and, in its skip conditions, a missing identifier as the empty
string, but it is not total: it raises KeyError exactly on the mappings
with more than 10000 followers and no identifier (line 168's logging
f-string indexes `user_data['login']` directly), and wherever it does
return, it returns the value of the total model `should_skip_user`.  The
empty mapping returns "do not skip" without raising, so in the cleanup
loop a candidate with no cached record is passed `{}`, passes the filter,
and the unfollow call is attempted. -/
theorem C10_filter_error_path_and_empty_dict :
    (∀ u : UserData, should_skip_user_run u = none ↔
        (10000 < u.followers?.getD 0 ∧ u.login? = none)) ∧
      (∀ (u : UserData) (b : Bool), should_skip_user_run u = some b → should_skip_user u = b) ∧
      should_skip_user_run emptyDict = some false ∧
      ∀ (o : Oracle) (fi : List (String × UserData)) (cap delay count : Nat)
          (u : String) (rest : List String), count < cap → fi.lookup u = none →
        ∃ evs, (cleanup_loop o fi cap delay (u :: rest) count).events =
          Event.filterCheck u false :: Event.unfollowCall u (o.unfollowOk u) :: evs := by
  refine ⟨?_, ?_, rfl, ?_⟩
  · intro u
    rw [should_skip_user_run_eq]
    cases hl : u.login? with
    | none =>
      by_cases h1 : 10000 < u.followers?.getD 0
      · simp [h1]
      · simp [h1]
    | some s => simp
  · intro u b h
    rw [should_skip_user_run_eq] at h
    cases hl : u.login? with
    | none =>
      rw [hl] at h
      by_cases h1 : 10000 < u.followers?.getD 0
      · simp [h1] at h
      · simp only [if_neg h1, Option.some.injEq] at h
        have hnc : strContains (lowerStr "") "github" = false := by decide
        simp [should_skip_user, h1, hl, hnc, ← h]
    | some s =>
      rw [hl] at h
      simpa using h
  · intro o fi cap delay count u rest hcap hlk
    have hc : ¬ cap ≤ count := by omega
    have hskip : should_skip_user ((fi.lookup u).getD emptyDict) = false := by
      rw [hlk]
      rfl
    cases hf : o.unfollowOk u with
    | true =>
      exact ⟨Event.sleepFor delay :: (cleanup_loop o fi cap delay rest (count + 1)).events,
        by simp [cleanup_loop, hc, hskip, hf]⟩
    | false =>
      exact ⟨(cleanup_loop o fi cap delay rest count).events,
        by simp [cleanup_loop, hc, hskip, hf]⟩

/-- Concrete instance of C10's corrected statement: the empty mapping is
returned as "do not skip" (by the error-free model and, through the
agreement conjunct, by the total model), and one candidate "x" with no
cached record is not skipped and the unfollow call is attempted. -/
theorem C10_filter_error_path_and_empty_dict_witness :
    should_skip_user emptyDict = false ∧
      should_skip_user_run emptyDict = some false ∧
      ∃ evs, (cleanup_loop (Oracle.mk (fun _ => some emptyDict) (fun _ => true) (fun _ => true))
          [] 1 0 ["x"] 0).events =
        Event.filterCheck "x" false ::
          Event.unfollowCall "x"
            ((Oracle.mk (fun _ => some emptyDict) (fun _ => true) (fun _ => true)).unfollowOk "x") :: evs :=
  ⟨C10_filter_error_path_and_empty_dict.2.1 emptyDict false
      C10_filter_error_path_and_empty_dict.2.2.1,
    C10_filter_error_path_and_empty_dict.2.2.1,
    C10_filter_error_path_and_empty_dict.2.2.2
      (Oracle.mk (fun _ => some emptyDict) (fun _ => true) (fun _ => true))
      [] 1 0 0 "x" [] (by omega) rfl⟩

/-- Claim C10 as stated is false on the code, twice over: the mapping
`{'login': 'github', 'type': 'Organization'}` has no follower-count field
yet is skipped (the organization rule still fires), and the mapping
`{'followers': 10001}` has no identifier field yet does not return
"do not skip" either — the call raises KeyError at line 168 instead of
returning at all. -/
theorem C10_counterexample :
    ((UserData.mk (some "github") none (some "Organization")).followers? = none ∧
        should_skip_user_run (UserData.mk (some "github") none (some "Organization")) = some true) ∧
      ((UserData.mk none (some 10001) none).login? = none ∧
        should_skip_user_run (UserData.mk none (some 10001) none) = none) :=
  ⟨⟨rfl, by decide⟩, ⟨rfl, rfl⟩⟩
